import Mathlib

/-!
Shallow embedding of the Nutri-Score calculator (src/src/main.rs).

The program computes over `f32`. We model the float values that can actually
arise here with an inductive type `F`: NaN, the two infinities, and finite
values as exact rationals (the program never produces values large enough for
rounding to cross a cutoff, and only the positive zero occurs). The IEEE-754
comparison operators of `f32` (`PartialOrd`) become `flt`/`fle`/`feq`: every
comparison with NaN is false except that `feq` is IEEE `==`, so NaN is not
equal to itself. Division and multiplication follow IEEE-754 on these cases
(x/0 with x > 0 is +inf, 0/0 is NaN, and so on).
-/

namespace Nutriscore

/-- Model of the `f32` values reachable in this program: NaN, plus and minus
infinity, and finite values as exact rationals (only positive zero occurs). -/
inductive F where
  | nan : F
  | inf : F
  | ninf : F
  | fin : ℚ → F
deriving DecidableEq, Repr

/-- IEEE-754 strict less-than on `F` (Rust `value > c` is `flt c value`):
any comparison involving NaN is false. -/
def flt : F → F → Bool
  | .nan, _ => false
  | _, .nan => false
  | .inf, _ => false
  | .ninf, .inf => true
  | .ninf, .ninf => false
  | .ninf, .fin _ => true
  | .fin _, .inf => true
  | .fin _, .ninf => false
  | .fin a, .fin b => a < b

/-- IEEE-754 less-than-or-equal on `F` (what Rust `partial_cmp != Greater`,
hence `is_sorted`, uses on consecutive pairs): false whenever NaN is involved. -/
def fle : F → F → Bool
  | .nan, _ => false
  | _, .nan => false
  | .ninf, _ => true
  | _, .ninf => false
  | _, .inf => true
  | .inf, _ => false
  | .fin a, .fin b => a ≤ b

/-- Rust `<[T]>::is_sorted` on a slice of `f32`: every consecutive pair
compares `partial_cmp != Greater`, i.e. `fle`. -/
def isSortedF : List F → Bool
  | [] => true
  | [_] => true
  | a :: b :: l => fle a b && isSortedF (b :: l)

/-- Rust `Iterator::rposition`: index of the LAST element satisfying the
predicate, or `none`. -/
def rposition (p : α → Bool) : List α → Option ℕ
  | [] => none
  | a :: l =>
    match rposition p l with
    | some n => some (n + 1)
    | none => if p a then some 0 else none

/-- `fn points<T>(arr: &[T], value: &T) -> usize` from src/src/main.rs lines
205-213: `arr.iter().rposition(|c| value > c).map_or(0, |n| n + 1)`.
The `assert!(arr.is_sorted())` precondition appears as a hypothesis of the
theorems below; the `assert!(idx <= arr.len())` postcondition is proved. -/
def points (arr : List F) (value : F) : ℕ :=
  match rposition (fun c => flt c value) arr with
  | some n => n + 1
  | none => 0

/-- `static ENERGY_CUTOFFS` (main.rs lines 132-134). -/
def ENERGY_CUTOFFS : List F :=
  [.fin 335, .fin 670, .fin 1005, .fin 1340, .fin 1675, .fin 2010, .fin 2345,
   .fin 2680, .fin 3015, .fin 3350]

/-- `static SUGAR_CUTOFFS` (main.rs line 135); `Rat.divInt 9 2` is the
literal `4.5`, and so on (stated via `divInt` so the kernel can evaluate). -/
def SUGAR_CUTOFFS : List F :=
  [.fin (Rat.divInt 9 2), .fin 9, .fin (Rat.divInt 27 2), .fin 18,
   .fin (Rat.divInt 45 2), .fin 27, .fin 31, .fin 36, .fin 40, .fin 45]

/-- `static SATURATED_FATS_CUTOFF` (main.rs line 136). -/
def SATURATED_FATS_CUTOFF : List F :=
  [.fin 1, .fin 2, .fin 3, .fin 4, .fin 5, .fin 6, .fin 7, .fin 8, .fin 9,
   .fin 10]

/-- `static SODIUM_CUTOFF` (main.rs lines 137-139). -/
def SODIUM_CUTOFF : List F :=
  [.fin 90, .fin 180, .fin 270, .fin 360, .fin 450, .fin 540, .fin 630,
   .fin 720, .fin 810, .fin 900]

/-- `static FRUITS_CUTOFFS` (main.rs lines 142-153), ending in five
`f32::INFINITY` entries. -/
def FRUITS_CUTOFFS : List F :=
  [.fin 40, .fin 60, .fin 80, .fin 80, .fin 80, .inf, .inf, .inf, .inf, .inf]

/-- `static FIBERS_CUTOFFS` (main.rs line 154): 0.8, 1.9, 2.8, 3.7, 4.7. -/
def FIBERS_CUTOFFS : List F :=
  [.fin (Rat.divInt 4 5), .fin (Rat.divInt 19 10), .fin (Rat.divInt 14 5),
   .fin (Rat.divInt 37 10), .fin (Rat.divInt 47 10)]

/-- `static PROTEIN_CUTOFFS` (main.rs line 155): 1.6, 3.2, 4.8, 6.4, 8.0. -/
def PROTEIN_CUTOFFS : List F :=
  [.fin (Rat.divInt 8 5), .fin (Rat.divInt 16 5), .fin (Rat.divInt 24 5),
   .fin (Rat.divInt 32 5), .fin 8]

/-- `enum Category` (main.rs lines 26-33). -/
inductive Category where
  | Drinks : Category
  | Cheese : Category
  | OilsAndFats : Category
  | Other : Category
deriving DecidableEq, Repr

/-- The seven-slot array returned by `Category::all_cutoffs`, in source order
`[energy, fats, sugar, protein, sodium, fibers, fruits]` (main.rs lines 78-86),
with the slots named after the destructuring in `calculate_nutriscore`. -/
structure Cutoffs where
  energy : List F
  fats : List F
  sugar : List F
  protein : List F
  sodium : List F
  fibers : List F
  fruits : List F

/-- `Category::all_cutoffs` (main.rs lines 55-87): Drinks overrides energy,
sugar and fruits; OilsAndFats overrides the (saturated) fats table. -/
def Category.all_cutoffs (c : Category) : Cutoffs where
  energy :=
    if c = .Drinks then
      [.fin 0, .fin 30, .fin 60, .fin 90, .fin 120, .fin 150, .fin 180,
       .fin 210, .fin 240, .fin 270]
    else ENERGY_CUTOFFS
  fats :=
    if c = .OilsAndFats then
      [.fin 10, .fin 16, .fin 22, .fin 28, .fin 34, .fin 40, .fin 46, .fin 52,
       .fin 58, .fin 64]
    else SATURATED_FATS_CUTOFF
  sugar :=
    if c = .Drinks then
      [.fin 0, .fin (Rat.divInt 3 2), .fin 3, .fin (Rat.divInt 9 2), .fin 6,
       .fin (Rat.divInt 15 2), .fin 9, .fin (Rat.divInt 21 2), .fin 12,
       .fin (Rat.divInt 27 2)]
    else SUGAR_CUTOFFS
  protein := PROTEIN_CUTOFFS
  sodium := SODIUM_CUTOFF
  fibers := FIBERS_CUTOFFS
  fruits :=
    if c = .Drinks then
      [.fin 0, .fin 40, .fin 40, .fin 60, .fin 60, .fin 80, .fin 80, .fin 80,
       .fin 80, .fin 80]
    else FRUITS_CUTOFFS

/-- `struct Nutrition` (main.rs lines 90-99). -/
structure Nutrition where
  energy : F
  fat : F
  saturated_fats : F
  sugar : F
  proteins : F
  salt : F
  fibers : F

/-- IEEE-754 multiplication on `F` (infinity times zero is NaN). -/
def fmul : F → F → F
  | .nan, _ => .nan
  | _, .nan => .nan
  | .inf, .inf => .inf
  | .inf, .ninf => .ninf
  | .ninf, .inf => .ninf
  | .ninf, .ninf => .inf
  | .inf, .fin b => if 0 < b then .inf else if b < 0 then .ninf else .nan
  | .fin a, .inf => if 0 < a then .inf else if a < 0 then .ninf else .nan
  | .ninf, .fin b => if 0 < b then .ninf else if b < 0 then .inf else .nan
  | .fin a, .ninf => if 0 < a then .ninf else if a < 0 then .inf else .nan
  | .fin a, .fin b => .fin (a * b)

/-- Exact division of rationals, stated through `Rat.divInt` so that the
kernel can evaluate it; `qdiv_eq_div` below shows it equals `a / b` whenever
`b ≠ 0` (and `fdiv` only uses it with `b ≠ 0`). -/
def qdiv (a b : ℚ) : ℚ :=
  Rat.divInt (a.num * (b.den : ℤ)) (b.num * (a.den : ℤ))

/-- IEEE-754 division on `F` (zeros are positive): `0/0 = NaN`, `a/0 = +inf`
for `a > 0`, `a/0 = -inf` for `a < 0`, `inf/inf = NaN`, `a/inf = 0`. -/
def fdiv : F → F → F
  | .nan, _ => .nan
  | _, .nan => .nan
  | .inf, .inf => .nan
  | .inf, .ninf => .nan
  | .ninf, .inf => .nan
  | .ninf, .ninf => .nan
  | .inf, .fin b => if 0 ≤ b then .inf else .ninf
  | .ninf, .fin b => if 0 ≤ b then .ninf else .inf
  | .fin _, .inf => .fin 0
  | .fin _, .ninf => .fin 0
  | .fin a, .fin b =>
    if b = 0 then (if a = 0 then .nan else if 0 < a then .inf else .ninf)
    else .fin (qdiv a b)

/-- True exactly on finite values (neither NaN nor an infinity). -/
def isFinite : F → Bool
  | .fin _ => true
  | _ => false

/-- `Nutrition::saturated_fat_value` (main.rs lines 118-124): for OilsAndFats
the percentage `saturated_fats / fat * 100`, otherwise the raw value. -/
def Nutrition.saturated_fat_value (n : Nutrition) (cat : Category) : F :=
  if cat = .OilsAndFats then fmul (fdiv n.saturated_fats n.fat) (.fin 100)
  else n.saturated_fats

/-- `Nutrition::sodium` (main.rs lines 126-128): `salt / 2.5`
(`Rat.divInt 5 2` is the literal `2.5`). -/
def Nutrition.sodium (n : Nutrition) : F := fdiv n.salt (.fin (Rat.divInt 5 2))

/-- `Category::score_to_letter` (main.rs lines 36-53). -/
def Category.score_to_letter (c : Category) (score : ℤ) (is_water : Bool) :
    Char :=
  match c with
  | .Drinks =>
    if is_water then 'A'
    else if score ≤ 1 then 'B'
    else if score ≤ 5 then 'C'
    else if score ≤ 9 then 'D'
    else 'E'
  | _ =>
    if score ≤ -1 then 'A'
    else if score ≤ 2 then 'B'
    else if score ≤ 10 then 'C'
    else if score ≤ 18 then 'D'
    else 'E'

/-- The `negative` sum in `calculate_nutriscore` (main.rs lines 218-221):
energy, sugar, (saturated) fats and sodium point counts. The `draw_negative`
wrappers only render progress bars and return `points` unchanged. -/
def negativePoints (cat : Category) (n : Nutrition) : ℕ :=
  points cat.all_cutoffs.energy n.energy
    + points cat.all_cutoffs.sugar n.sugar
    + points cat.all_cutoffs.fats (n.saturated_fat_value cat)
    + points cat.all_cutoffs.sodium n.sodium

/-- `fruits_points` in `calculate_nutriscore` (main.rs line 223). -/
def fruitPoints (cat : Category) (fruits_value : F) : ℕ :=
  points cat.all_cutoffs.fruits fruits_value

/-- Fiber point count inside the `positive` closure (main.rs line 227). -/
def fiberPoints (cat : Category) (n : Nutrition) : ℕ :=
  points cat.all_cutoffs.fibers n.fibers

/-- Protein point count inside the `positive` closure (main.rs line 228). -/
def proteinPoints (cat : Category) (n : Nutrition) : ℕ :=
  points cat.all_cutoffs.protein n.proteins

/-- `fn calculate_nutriscore` (main.rs lines 215-241). The `println!` in the
suppression branch is presentation only. The `isize::try_from(..).unwrap()`
casts are the coercions `ℕ → ℤ` (the sums are at most 40, so they never fail
in the program). -/
def calculate_nutriscore (cat : Category) (n : Nutrition) (fruits_value : F) :
    ℤ :=
  let negative : ℤ := (negativePoints cat n : ℤ)
  let fruits_points : ℕ := fruitPoints cat fruits_value
  let positive : ℤ :=
    ((fruits_points + fiberPoints cat n + proteinPoints cat n : ℕ) : ℤ)
  if cat = .Cheese then negative - positive
  else if 11 ≤ negative ∧ fruits_points < 5 then negative - (fruits_points : ℤ)
  else negative - positive

/-! ## Helper lemmas -/

lemma qdiv_eq_div (a b : ℚ) (h : b ≠ 0) : qdiv a b = a / b := by
  unfold qdiv
  rw [Rat.divInt_eq_div]
  have had : ((a.den : ℚ)) ≠ 0 := by exact_mod_cast a.den_nz
  have hbd : ((b.den : ℚ)) ≠ 0 := by exact_mod_cast b.den_nz
  have hbn : ((b.num : ℚ)) ≠ 0 := by exact_mod_cast Rat.num_ne_zero.mpr h
  have ha : (a.num : ℚ) = a * (a.den : ℚ) :=
    (div_eq_iff had).mp (Rat.num_div_den a)
  have hb : (b.num : ℚ) = b * (b.den : ℚ) :=
    (div_eq_iff hbd).mp (Rat.num_div_den b)
  push_cast
  rw [div_eq_div_iff (mul_ne_zero hbn had) h, ha, hb]
  ring

lemma fle_trans {a b c : F} (h1 : fle a b = true) (h2 : fle b c = true) :
    fle a c = true := by
  cases a <;> cases b <;> cases c <;> simp_all [fle]
  exact le_trans h1 h2

lemma flt_of_fle_of_flt {a b v : F} (h1 : fle a b = true)
    (h2 : flt b v = true) : flt a v = true := by
  cases a <;> cases b <;> cases v <;> simp_all [fle, flt]
  exact lt_of_le_of_lt h1 h2

lemma flt_of_flt_of_fle {c v w : F} (h1 : flt c v = true)
    (h2 : fle v w = true) : flt c w = true := by
  cases c <;> cases v <;> cases w <;> simp_all [fle, flt]
  exact lt_of_lt_of_le h1 h2

lemma flt_inf_left (v : F) : flt .inf v = false := by cases v <;> rfl

lemma flt_nan_right (c : F) : flt c .nan = false := by cases c <;> rfl

lemma isSortedF_tail {a : F} {l : List F} (h : isSortedF (a :: l) = true) :
    isSortedF l = true := by
  cases l with
  | nil => rfl
  | cons b l => exact (Bool.and_eq_true_iff.mp h).2

lemma isSortedF_head_fle {a : F} {l : List F} (h : isSortedF (a :: l) = true) :
    ∀ x ∈ l, fle a x = true := by
  induction l generalizing a with
  | nil => intro x hx; cases hx
  | cons b l ih =>
    intro x hx
    have hab : fle a b = true := (Bool.and_eq_true_iff.mp h).1
    have hbl : isSortedF (b :: l) = true := (Bool.and_eq_true_iff.mp h).2
    rcases List.mem_cons.mp hx with rfl | hx
    · exact hab
    · exact fle_trans hab (ih hbl x hx)

lemma rposition_cons_some {p : α → Bool} {a : α} {l : List α} {n : ℕ}
    (h : rposition p l = some n) : rposition p (a :: l) = some (n + 1) := by
  simp [rposition, h]

lemma rposition_cons_none_pos {p : α → Bool} {a : α} {l : List α}
    (h : rposition p l = none) (hp : p a = true) :
    rposition p (a :: l) = some 0 := by
  simp [rposition, h, hp]

lemma rposition_cons_none_neg {p : α → Bool} {a : α} {l : List α}
    (h : rposition p l = none) (hp : p a = false) :
    rposition p (a :: l) = none := by
  simp [rposition, h, hp]

lemma rposition_eq_none_iff (p : α → Bool) (l : List α) :
    rposition p l = none ↔ ∀ x ∈ l, p x = false := by
  induction l with
  | nil => simp [rposition]
  | cons a l ih =>
    cases hr : rposition p l with
    | some n =>
      rw [rposition_cons_some hr]
      simp only [List.mem_cons]
      constructor
      · intro h; cases h
      · intro h
        have : ∀ x ∈ l, p x = false := fun x hx => h x (Or.inr hx)
        rw [ih.mpr this] at hr; cases hr
    | none =>
      cases hp : p a with
      | true =>
        rw [rposition_cons_none_pos hr hp]
        simp only [List.mem_cons]
        constructor
        · intro h; cases h
        · intro h
          have := h a (Or.inl rfl)
          rw [hp] at this; cases this
      | false =>
        rw [rposition_cons_none_neg hr hp]
        simp only [List.mem_cons]
        constructor
        · intro _ x hx
          rcases hx with rfl | hx
          · exact hp
          · exact (ih.mp hr) x hx
        · intro _; trivial

lemma rposition_lt_length {p : α → Bool} {l : List α} {n : ℕ}
    (h : rposition p l = some n) : n < l.length := by
  induction l generalizing n with
  | nil => cases h
  | cons a l ih =>
    simp only [rposition] at h
    cases hr : rposition p l with
    | some m =>
      rw [hr] at h
      cases h
      exact Nat.succ_lt_succ (ih hr)
    | none =>
      rw [hr] at h
      by_cases hp : p a = true
      · rw [if_pos hp] at h
        cases h
        exact Nat.succ_pos _
      · rw [if_neg hp] at h
        cases h

lemma points_le_length (arr : List F) (v : F) : points arr v ≤ arr.length := by
  unfold points
  cases hr : rposition (fun c => flt c v) arr with
  | some n => exact rposition_lt_length hr
  | none => exact Nat.zero_le _

lemma points_eq_zero {arr : List F} {v : F}
    (h : ∀ c ∈ arr, flt c v = false) : points arr v = 0 := by
  unfold points
  rw [(rposition_eq_none_iff _ arr).mpr h]

lemma points_rposition_some {arr : List F} {v : F} {n : ℕ}
    (h : rposition (fun c => flt c v) arr = some n) : points arr v = n + 1 := by
  simp [points, h]

lemma points_rposition_none {arr : List F} {v : F}
    (h : rposition (fun c => flt c v) arr = none) : points arr v = 0 := by
  simp [points, h]

lemma points_eq_countP {arr : List F} (v : F) (h : isSortedF arr = true) :
    points arr v = arr.countP (fun c => flt c v) := by
  induction arr with
  | nil => rfl
  | cons a l ih =>
    have hl := ih (isSortedF_tail h)
    rw [List.countP_cons, ← hl]
    cases hr : rposition (fun c => flt c v) l with
    | some n =>
      have hmem : ¬ ∀ x ∈ l, flt x v = false := by
        intro hall
        rw [(rposition_eq_none_iff _ l).mpr hall] at hr
        cases hr
      push_neg at hmem
      obtain ⟨x, hx, hpx⟩ := hmem
      have hax : flt a v = true :=
        flt_of_fle_of_flt (isSortedF_head_fle h x hx)
          (by simpa using hpx)
      rw [points_rposition_some (rposition_cons_some hr),
        points_rposition_some hr]
      simp [hax]
    | none =>
      rw [points_rposition_none hr]
      cases hp : flt a v with
      | true =>
        rw [points_rposition_some (rposition_cons_none_pos hr hp)]
        simp
      | false =>
        rw [points_rposition_none (rposition_cons_none_neg hr hp)]
        simp

lemma rposition_append_of_false {p : α → Bool} {l2 : List α}
    (h : ∀ x ∈ l2, p x = false) (l1 : List α) :
    rposition p (l1 ++ l2) = rposition p l1 := by
  induction l1 with
  | nil =>
    simp only [List.nil_append]
    exact (rposition_eq_none_iff p l2).mpr h
  | cons a l ih =>
    have ih2 : rposition p (List.append l l2) = rposition p l := ih
    simp only [List.cons_append, rposition, ih2]

lemma points_append_of_false {l2 : List F} {v : F}
    (h : ∀ x ∈ l2, flt x v = false) (l1 : List F) :
    points (l1 ++ l2) v = points l1 v := by
  unfold points
  rw [rposition_append_of_false h l1]

/-! ## Claim theorems -/

/-- C1: for every threshold table sorted ascending and every value,
`points(table, value)` returns exactly the number of entries strictly less
than `value`, and the result is in `[0, table.length]` (the lower bound holds
by the return type `usize`/`ℕ`). -/
theorem points_counts_entries_below (arr : List F) (v : F)
    (h : isSortedF arr = true) :
    points arr v = arr.countP (fun c => flt c v) ∧
      points arr v ≤ arr.length :=
  ⟨points_eq_countP v h, points_le_length arr v⟩

/-- Witness for C1 at the sorted table `[1, 2, 2]` and value `2`. -/
theorem points_counts_entries_below_witness :
    isSortedF [F.fin 1, F.fin 2, F.fin 2] = true ∧
      (points [F.fin 1, F.fin 2, F.fin 2] (F.fin 2) =
          List.countP (fun c => flt c (F.fin 2)) [F.fin 1, F.fin 2, F.fin 2] ∧
        points [F.fin 1, F.fin 2, F.fin 2] (F.fin 2) ≤
          ([F.fin 1, F.fin 2, F.fin 2] : List F).length) :=
  ⟨by decide, points_counts_entries_below _ _ (by decide)⟩

/-- C5: for the Cheese category the final score is always
`negative - (fruit_points + fiber_points + protein_points)`; fiber and
protein are never suppressed. -/
theorem cheese_counts_all_positives (n : Nutrition) (fv : F) :
    calculate_nutriscore .Cheese n fv =
      (negativePoints .Cheese n : ℤ) -
        ((fruitPoints .Cheese fv + fiberPoints .Cheese n
            + proteinPoints .Cheese n : ℕ) : ℤ) := by
  unfold calculate_nutriscore
  simp

/-- C7: for a fixed sorted table, `points` is monotone non-decreasing in the
value argument. -/
theorem points_monotone (arr : List F) (v1 v2 : F)
    (hs : isSortedF arr = true) (h : fle v1 v2 = true) :
    points arr v1 ≤ points arr v2 := by
  rw [points_eq_countP v1 hs, points_eq_countP v2 hs]
  exact List.countP_mono_left (fun c _ hp => flt_of_flt_of_fle hp h)

/-- Witness for C7 at the sorted table `[1, 3]` with values `2 ≤ 4`. -/
theorem points_monotone_witness :
    isSortedF [F.fin 1, F.fin 3] = true ∧ fle (F.fin 2) (F.fin 4) = true ∧
      points [F.fin 1, F.fin 3] (F.fin 2) ≤ points [F.fin 1, F.fin 3] (F.fin 4) :=
  ⟨by decide, by decide, points_monotone _ _ _ (by decide) (by decide)⟩

/-- C2: for every category other than Cheese, if `negative >= 11` and
`fruit_points < 5` then the final score is `negative - fruit_points` (fiber
and protein contribute nothing); and when `negative < 11` or
`fruit_points == 5` the final score is
`negative - (fruit_points + fiber_points + protein_points)`. -/
theorem composition_rule (cat : Category) (n : Nutrition) (fv : F)
    (hc : cat ≠ .Cheese) :
    (11 ≤ negativePoints cat n ∧ fruitPoints cat fv < 5 →
      calculate_nutriscore cat n fv =
        (negativePoints cat n : ℤ) - (fruitPoints cat fv : ℤ)) ∧
    (negativePoints cat n < 11 ∨ fruitPoints cat fv = 5 →
      calculate_nutriscore cat n fv =
        (negativePoints cat n : ℤ) -
          ((fruitPoints cat fv : ℤ) + (fiberPoints cat n : ℤ)
            + (proteinPoints cat n : ℤ))) := by
  unfold calculate_nutriscore
  rw [if_neg hc]
  constructor
  · rintro ⟨h1, h2⟩
    rw [if_pos ⟨by exact_mod_cast h1, h2⟩]
  · intro h
    rw [if_neg]
    · push_cast
      ring
    · rintro ⟨ha, hb⟩
      have ha2 : 11 ≤ negativePoints cat n := by exact_mod_cast ha
      rcases h with h | h
      · omega
      · omega

/-- Witness for C2: the all-zero `Other`-category record falls in the
unsuppressed branch. -/
theorem composition_rule_witness :
    calculate_nutriscore .Other
        ⟨.fin 0, .fin 0, .fin 0, .fin 0, .fin 0, .fin 0, .fin 0⟩ (.fin 0) =
      (negativePoints .Other
          ⟨.fin 0, .fin 0, .fin 0, .fin 0, .fin 0, .fin 0, .fin 0⟩ : ℤ) -
        ((fruitPoints .Other (.fin 0) : ℤ) +
          (fiberPoints .Other
            ⟨.fin 0, .fin 0, .fin 0, .fin 0, .fin 0, .fin 0, .fin 0⟩ : ℤ) +
          (proteinPoints .Other
            ⟨.fin 0, .fin 0, .fin 0, .fin 0, .fin 0, .fin 0, .fin 0⟩ : ℤ)) :=
  (composition_rule .Other _ (.fin 0) (by decide)).2 (Or.inl (by decide))

/-- C3: the grade mapper is total (it is a function into `Char`); for Drinks
with `is_water` it returns `'A'` regardless of score, for Drinks otherwise
`'B'`/`'C'`/`'D'`/`'E'` on the bands `<= 1`, `2-5`, `6-9`, `>= 10`; for every
other category `is_water` is ignored and the bands are `<= -1`, `0-2`,
`3-10`, `11-18`, `>= 19`. -/
theorem grade_mapper_spec (s : ℤ) (w : Bool) (cat : Category) :
    (Category.Drinks.score_to_letter s true = 'A') ∧
    (s ≤ 1 → Category.Drinks.score_to_letter s false = 'B') ∧
    (2 ≤ s ∧ s ≤ 5 → Category.Drinks.score_to_letter s false = 'C') ∧
    (6 ≤ s ∧ s ≤ 9 → Category.Drinks.score_to_letter s false = 'D') ∧
    (10 ≤ s → Category.Drinks.score_to_letter s false = 'E') ∧
    (cat ≠ .Drinks →
      (cat.score_to_letter s w = cat.score_to_letter s false) ∧
      (s ≤ -1 → cat.score_to_letter s w = 'A') ∧
      (0 ≤ s ∧ s ≤ 2 → cat.score_to_letter s w = 'B') ∧
      (3 ≤ s ∧ s ≤ 10 → cat.score_to_letter s w = 'C') ∧
      (11 ≤ s ∧ s ≤ 18 → cat.score_to_letter s w = 'D') ∧
      (19 ≤ s → cat.score_to_letter s w = 'E')) := by
  have hDf : Category.Drinks.score_to_letter s false =
      (if s ≤ 1 then 'B' else if s ≤ 5 then 'C' else if s ≤ 9 then 'D'
        else 'E') := rfl
  have hO : ∀ c : Category, c ≠ .Drinks → ∀ b : Bool,
      c.score_to_letter s b =
        (if s ≤ -1 then 'A' else if s ≤ 2 then 'B' else if s ≤ 10 then 'C'
          else if s ≤ 18 then 'D' else 'E') := by
    intro c hc b
    cases c with
    | Drinks => exact absurd rfl hc
    | Cheese => rfl
    | OilsAndFats => rfl
    | Other => rfl
  refine ⟨rfl, ?_, ?_, ?_, ?_, ?_⟩
  · intro h
    rw [hDf]
    split_ifs <;> first | rfl | (exfalso; omega)
  · rintro ⟨h1, h2⟩
    rw [hDf]
    split_ifs <;> first | rfl | (exfalso; omega)
  · rintro ⟨h1, h2⟩
    rw [hDf]
    split_ifs <;> first | rfl | (exfalso; omega)
  · intro h
    rw [hDf]
    split_ifs <;> first | rfl | (exfalso; omega)
  · intro hc
    refine ⟨by rw [hO cat hc w, hO cat hc false], ?_, ?_, ?_, ?_, ?_⟩
    · intro h
      rw [hO cat hc w]
      split_ifs <;> first | rfl | (exfalso; omega)
    · rintro ⟨h1, h2⟩
      rw [hO cat hc w]
      split_ifs <;> first | rfl | (exfalso; omega)
    · rintro ⟨h1, h2⟩
      rw [hO cat hc w]
      split_ifs <;> first | rfl | (exfalso; omega)
    · rintro ⟨h1, h2⟩
      rw [hO cat hc w]
      split_ifs <;> first | rfl | (exfalso; omega)
    · intro h
      rw [hO cat hc w]
      split_ifs <;> first | rfl | (exfalso; omega)

/-- Witness for C3 at sample scores on each band, water and non-water. -/
theorem grade_mapper_spec_witness :
    Category.Drinks.score_to_letter 15 true = 'A' ∧
      Category.Drinks.score_to_letter 3 false = 'C' ∧
      Category.Other.score_to_letter 15 true =
        Category.Other.score_to_letter 15 false ∧
      Category.Other.score_to_letter 15 true = 'D' :=
  ⟨(grade_mapper_spec 15 true .Other).1,
    (grade_mapper_spec 3 true .Other).2.2.1 ⟨by decide, by decide⟩,
    ((grade_mapper_spec 15 true .Other).2.2.2.2.2 (by decide)).1,
    ((grade_mapper_spec 15 true .Other).2.2.2.2.2 (by decide)).2.2.2.2.1
      ⟨by decide, by decide⟩⟩

/-- C4 counterexample: for Drinks the fruit/veg table is ten finite entries
ending at 80, so a fruit percentage of 100 scores 10 points, outside `[0,5]`. -/
theorem drinks_fruit_points_exceed_five :
    ¬ (fruitPoints .Drinks (.fin 100) ≤ 5) := by decide

/-- C4 amended: the fruit point count always lies in `[0, 10]`, and in
`[0, 5]` for every category other than Drinks (whose table ends in five
unreachable infinite cutoffs). -/
theorem fruit_points_bounds (cat : Category) (fv : F) :
    fruitPoints cat fv ≤ 10 ∧ (cat ≠ .Drinks → fruitPoints cat fv ≤ 5) := by
  constructor
  · have h := points_le_length (cat.all_cutoffs).fruits fv
    have hl : (cat.all_cutoffs).fruits.length = 10 := by cases cat <;> rfl
    rw [hl] at h
    exact h
  · intro hc
    have hfr : (cat.all_cutoffs).fruits = FRUITS_CUTOFFS := by
      cases cat with
      | Drinks => exact absurd rfl hc
      | Cheese => rfl
      | OilsAndFats => rfl
      | Other => rfl
    unfold fruitPoints
    rw [hfr]
    have h2 : ∀ x ∈ ([.inf, .inf, .inf, .inf, .inf] : List F),
        flt x fv = false := by
      intro x hx
      simp only [List.mem_cons, List.not_mem_nil, or_false] at hx
      rcases hx with rfl | rfl | rfl | rfl | rfl <;> exact flt_inf_left fv
    have heq : points FRUITS_CUTOFFS fv =
        points [F.fin 40, F.fin 60, F.fin 80, F.fin 80, F.fin 80] fv := by
      have hsplit : FRUITS_CUTOFFS =
          [F.fin 40, F.fin 60, F.fin 80, F.fin 80, F.fin 80] ++
            [F.inf, F.inf, F.inf, F.inf, F.inf] := rfl
      rw [hsplit]
      exact points_append_of_false h2 _
    rw [heq]
    simpa using
      points_le_length [F.fin 40, F.fin 60, F.fin 80, F.fin 80, F.fin 80] fv

/-- Witness for C4 (amended) at the Cheese category and fruit value 100. -/
theorem fruit_points_bounds_witness :
    fruitPoints .Cheese (.fin 100) ≤ 10 ∧ fruitPoints .Cheese (.fin 100) ≤ 5 :=
  ⟨(fruit_points_bounds .Cheese (.fin 100)).1,
    (fruit_points_bounds .Cheese (.fin 100)).2 (by decide)⟩

/-- C6: the table resolution returns seven ascending sequences equal to the
spec's canonical cutoff lists, Drinks overriding only energy, sugar and
fruit/veg and OilsAndFats only the saturated-fat table; the energy,
saturated-fat, sugar and sodium tables have 10 entries, fiber and protein 5. -/
theorem all_cutoffs_resolved (cat : Category) :
    (isSortedF (cat.all_cutoffs).energy = true ∧
      isSortedF (cat.all_cutoffs).fats = true ∧
      isSortedF (cat.all_cutoffs).sugar = true ∧
      isSortedF (cat.all_cutoffs).protein = true ∧
      isSortedF (cat.all_cutoffs).sodium = true ∧
      isSortedF (cat.all_cutoffs).fibers = true ∧
      isSortedF (cat.all_cutoffs).fruits = true) ∧
    ((cat.all_cutoffs).energy.length = 10 ∧
      (cat.all_cutoffs).fats.length = 10 ∧
      (cat.all_cutoffs).sugar.length = 10 ∧
      (cat.all_cutoffs).sodium.length = 10 ∧
      (cat.all_cutoffs).fibers.length = 5 ∧
      (cat.all_cutoffs).protein.length = 5) ∧
    ((cat.all_cutoffs).protein =
        [.fin (Rat.divInt 8 5), .fin (Rat.divInt 16 5), .fin (Rat.divInt 24 5),
          .fin (Rat.divInt 32 5), .fin 8] ∧
      (cat.all_cutoffs).sodium =
        [.fin 90, .fin 180, .fin 270, .fin 360, .fin 450, .fin 540, .fin 630,
          .fin 720, .fin 810, .fin 900] ∧
      (cat.all_cutoffs).fibers =
        [.fin (Rat.divInt 4 5), .fin (Rat.divInt 19 10), .fin (Rat.divInt 14 5),
          .fin (Rat.divInt 37 10), .fin (Rat.divInt 47 10)]) ∧
    (cat ≠ .Drinks →
      (cat.all_cutoffs).energy =
        [.fin 335, .fin 670, .fin 1005, .fin 1340, .fin 1675, .fin 2010,
          .fin 2345, .fin 2680, .fin 3015, .fin 3350] ∧
      (cat.all_cutoffs).sugar =
        [.fin (Rat.divInt 9 2), .fin 9, .fin (Rat.divInt 27 2), .fin 18,
          .fin (Rat.divInt 45 2), .fin 27, .fin 31, .fin 36, .fin 40,
          .fin 45] ∧
      (cat.all_cutoffs).fruits =
        [.fin 40, .fin 60, .fin 80, .fin 80, .fin 80, .inf, .inf, .inf, .inf,
          .inf]) ∧
    (cat ≠ .OilsAndFats →
      (cat.all_cutoffs).fats =
        [.fin 1, .fin 2, .fin 3, .fin 4, .fin 5, .fin 6, .fin 7, .fin 8,
          .fin 9, .fin 10]) ∧
    (cat = .Drinks →
      (cat.all_cutoffs).energy =
        [.fin 0, .fin 30, .fin 60, .fin 90, .fin 120, .fin 150, .fin 180,
          .fin 210, .fin 240, .fin 270] ∧
      (cat.all_cutoffs).sugar =
        [.fin 0, .fin (Rat.divInt 3 2), .fin 3, .fin (Rat.divInt 9 2), .fin 6,
          .fin (Rat.divInt 15 2), .fin 9, .fin (Rat.divInt 21 2), .fin 12,
          .fin (Rat.divInt 27 2)] ∧
      (cat.all_cutoffs).fruits =
        [.fin 0, .fin 40, .fin 40, .fin 60, .fin 60, .fin 80, .fin 80,
          .fin 80, .fin 80, .fin 80]) ∧
    (cat = .OilsAndFats →
      (cat.all_cutoffs).fats =
        [.fin 10, .fin 16, .fin 22, .fin 28, .fin 34, .fin 40, .fin 46,
          .fin 52, .fin 58, .fin 64]) := by
  cases cat <;> decide

/-- Witness for C6: the resolved energy table for the Other category. -/
theorem all_cutoffs_resolved_witness :
    (Category.Other.all_cutoffs).energy =
      [.fin 335, .fin 670, .fin 1005, .fin 1340, .fin 1675, .fin 2010,
        .fin 2345, .fin 2680, .fin 3015, .fin 3350] :=
  ((all_cutoffs_resolved .Other).2.2.2.1 (by decide)).1

/-- C8: the saturated-fat resolution returns `saturated_fat / fat * 100` for
OilsAndFats and the raw saturated-fat value for every other category; with
`fat == 0` for an OilsAndFats item the unguarded division yields a non-finite
value (NaN or an infinity) rather than an error. -/
theorem saturated_fat_ratio_spec (n : Nutrition) :
    n.saturated_fat_value .OilsAndFats
        = fmul (fdiv n.saturated_fats n.fat) (.fin 100) ∧
    (∀ cat : Category, cat ≠ .OilsAndFats →
      n.saturated_fat_value cat = n.saturated_fats) ∧
    (n.fat = .fin 0 →
      isFinite (n.saturated_fat_value .OilsAndFats) = false) := by
  refine ⟨rfl, ?_, ?_⟩
  · intro cat hc
    cases cat with
    | OilsAndFats => exact absurd rfl hc
    | Drinks => rfl
    | Cheese => rfl
    | Other => rfl
  · intro hf
    unfold Nutrition.saturated_fat_value
    rw [hf]
    cases hs : n.saturated_fats with
    | nan => decide
    | inf => decide
    | ninf => decide
    | fin a =>
      rw [if_pos rfl]
      rcases lt_trichotomy a 0 with h | h | h
      · simp [fdiv, fmul, isFinite, h.ne, lt_asymm h,
          (by norm_num : (0:ℚ) < 100)]
      · subst h
        decide
      · simp [fdiv, fmul, isFinite, h.ne', h, (by norm_num : (0:ℚ) < 100)]

/-- Witness for C8: an OilsAndFats item with `fat = 0` and
`saturated_fats = 3` resolves to a non-finite value. -/
theorem saturated_fat_ratio_spec_witness :
    isFinite (Nutrition.saturated_fat_value
        ⟨.fin 0, .fin 0, .fin 3, .fin 0, .fin 0, .fin 0, .fin 0⟩
        .OilsAndFats) = false :=
  (saturated_fat_ratio_spec
    ⟨.fin 0, .fin 0, .fin 3, .fin 0, .fin 0, .fin 0, .fin 0⟩).2.2 rfl

/-- C9: for an OilsAndFats item with `fat == 0`: if `saturated_fats == 0` the
ratio is NaN and the fat point count is 0 (no comparison against NaN
succeeds); if `saturated_fats > 0` the ratio is positive infinity and the fat
point count is 10, the table length. -/
theorem oils_zero_fat_points (n : Nutrition) (hf : n.fat = .fin 0) :
    (n.saturated_fats = .fin 0 →
      n.saturated_fat_value .OilsAndFats = .nan ∧
      points (Category.OilsAndFats.all_cutoffs).fats
        (n.saturated_fat_value .OilsAndFats) = 0) ∧
    (flt (.fin 0) n.saturated_fats = true →
      n.saturated_fat_value .OilsAndFats = .inf ∧
      points (Category.OilsAndFats.all_cutoffs).fats
        (n.saturated_fat_value .OilsAndFats) = 10) := by
  constructor
  · intro hs
    have hv : n.saturated_fat_value .OilsAndFats = .nan := by
      unfold Nutrition.saturated_fat_value
      rw [hf, hs]
      decide
    refine ⟨hv, ?_⟩
    rw [hv]
    exact points_eq_zero (fun c _ => flt_nan_right c)
  · intro hs
    have hv : n.saturated_fat_value .OilsAndFats = .inf := by
      unfold Nutrition.saturated_fat_value
      rw [hf]
      cases hsf : n.saturated_fats with
      | nan => rw [hsf] at hs; simp [flt] at hs
      | ninf => rw [hsf] at hs; simp [flt] at hs
      | inf => decide
      | fin a =>
        rw [hsf] at hs
        have ha : 0 < a := by simpa [flt] using hs
        rw [if_pos rfl]
        simp [fdiv, fmul, ha, ha.ne', (by norm_num : (0:ℚ) < 100)]
    refine ⟨hv, ?_⟩
    rw [hv]
    decide

/-- Witness for C9 at two concrete OilsAndFats items with zero fat. -/
theorem oils_zero_fat_points_witness :
    points (Category.OilsAndFats.all_cutoffs).fats
        (Nutrition.saturated_fat_value
          ⟨.fin 0, .fin 0, .fin 0, .fin 0, .fin 0, .fin 0, .fin 0⟩
          .OilsAndFats) = 0 ∧
    points (Category.OilsAndFats.all_cutoffs).fats
        (Nutrition.saturated_fat_value
          ⟨.fin 0, .fin 0, .fin 3, .fin 0, .fin 0, .fin 0, .fin 0⟩
          .OilsAndFats) = 10 :=
  ⟨((oils_zero_fat_points
      ⟨.fin 0, .fin 0, .fin 0, .fin 0, .fin 0, .fin 0, .fin 0⟩ rfl).1 rfl).2,
    ((oils_zero_fat_points
      ⟨.fin 0, .fin 0, .fin 3, .fin 0, .fin 0, .fin 0, .fin 0⟩ rfl).2
        (by decide)).2⟩

/-- C10: the derived sodium value is `salt / 2.5` in the same unit as salt
while the sodium table (used unchanged by every category) starts at 90, so
any record with `salt < 225` scores 0 sodium points. -/
theorem sodium_points_always_zero (cat : Category) (n : Nutrition)
    (h : flt n.salt (.fin 225) = true) :
    (cat.all_cutoffs).sodium = SODIUM_CUTOFF ∧
      points (cat.all_cutoffs).sodium n.sodium = 0 := by
  have hsod : (cat.all_cutoffs).sodium = SODIUM_CUTOFF := by cases cat <;> rfl
  refine ⟨hsod, ?_⟩
  rw [hsod]
  cases hs : n.salt with
  | nan => rw [hs] at h; simp [flt] at h
  | inf => rw [hs] at h; simp [flt] at h
  | ninf =>
    unfold Nutrition.sodium
    rw [hs]
    decide
  | fin q =>
    rw [hs] at h
    have hq : q < 225 := by simpa [flt] using h
    unfold Nutrition.sodium
    rw [hs]
    have h52 : (Rat.divInt 5 2 : ℚ) ≠ 0 := by decide
    have hv : fdiv (.fin q) (.fin (Rat.divInt 5 2)) =
        .fin (qdiv q (Rat.divInt 5 2)) := by
      simp [fdiv, h52]
    rw [hv]
    have hlt : qdiv q (Rat.divInt 5 2) < 90 := by
      rw [qdiv_eq_div _ _ h52]
      have h2 : (Rat.divInt 5 2 : ℚ) = 5 / 2 := by
        rw [Rat.divInt_eq_div]
        norm_num
      rw [h2, div_lt_iff (by norm_num : (0:ℚ) < 5 / 2)]
      linarith
    apply points_eq_zero
    intro c hc
    simp only [SODIUM_CUTOFF, List.mem_cons, List.not_mem_nil, or_false] at hc
    rcases hc with rfl | rfl | rfl | rfl | rfl | rfl | rfl | rfl | rfl | rfl <;>
      · simp only [flt, decide_eq_false_iff_not]
        linarith

/-- Witness for C10 at an Other-category record with `salt = 1`. -/
theorem sodium_points_always_zero_witness :
    points (Category.Other.all_cutoffs).sodium
      (Nutrition.sodium
        ⟨.fin 0, .fin 0, .fin 0, .fin 0, .fin 0, .fin 1, .fin 0⟩) = 0 :=
  (sodium_points_always_zero .Other
    ⟨.fin 0, .fin 0, .fin 0, .fin 0, .fin 0, .fin 1, .fin 0⟩ (by decide)).2

end Nutriscore
